import Mathlib

/-!
Shallow embedding of the packet-routing core of the Artemis Teensy flight
software: the main routing loop (main.cpp) and the Raspberry Pi channel
(rpi_channel.cpp).  Pure data is modelled directly; the global mutable state
of each loop becomes an explicit state record threaded through the functions.
External collaborators (scheduler, serial transport, sensors) appear as
function parameters or as event ledgers (lists of transmitted packets and of
performed delays).
-/

namespace Artemis

/-- Packet type identifiers, the members of PacketComm::TypeId that the routing
core dispatches on. -/
inductive TypeId where
  | CommandObcPing
  | DataObcPong
  | CommandEpsCommunicate
  | CommandEpsSwitchName
  | CommandEpsSwitchStatus
  | CommandObcSendBeacon
  | CommandObcHalt
  | DataEpsResponse
  deriving DecidableEq, Repr

/-- Modelled from the spec: the NODES enumeration of logical endpoint
identifiers (ground, flight computer, companion computer) lives in the COSMOS
kernel headers, which are not under src/.  The routing code only compares these
values for equality, so any three distinct naturals are faithful. -/
def GROUND_NODE_ID : Nat := 1

/-- Modelled from the spec: flight-computer (Teensy) node identifier. -/
def TEENSY_NODE_ID : Nat := 2

/-- Modelled from the spec: companion-computer (Raspberry Pi) node
identifier. -/
def RPI_NODE_ID : Nat := 3

/-- Modelled from the spec: Channels::Channel_ID value for the radio-link
(RFM23) channel, from artemis_channels.h which is not under src/. -/
def RFM23_CHANNEL : Nat := 0

/-- Modelled from the spec: Channel_ID value for the power-distribution-unit
channel. -/
def PDU_CHANNEL : Nat := 1

/-- Modelled from the spec: Channel_ID value for the companion-computer
channel. -/
def RPI_CHANNEL : Nat := 2

/-- Modelled from the spec: the PDU_SW switch identifier for the companion
computer (pdu.h is not under src/); the code casts payload byte 0 to this
enumeration and compares for equality, so a fixed nonzero byte is faithful. -/
def PDU_SW_RPI : Nat := 10

/-- Modelled from the spec: the PDU_SW "all switches" wildcard identifier. -/
def PDU_SW_All : Nat := 12

/-- Packet header as used by the routing core: type, origin node, destination
node, and the outgoing-channel hint. -/
structure PacketHeader where
  type     : TypeId
  nodeorig : Nat
  nodedest : Nat
  chanout  : Nat
  deriving DecidableEq, Repr

/-- A PacketComm packet: header plus byte payload. -/
structure PacketComm where
  header : PacketHeader
  data   : List Nat
  deriving DecidableEq, Repr

/-- Modelled from the spec: PullQueue (helpers.h, not under src/) removes and
returns the oldest packet of a mutex-guarded FIFO queue, or reports empty
without blocking. -/
def PullQueue (q : List PacketComm) : Option (PacketComm × List PacketComm) :=
  match q with
  | [] => none
  | p :: rest => some (p, rest)

/-- State of the Raspberry Pi channel: the channel-local packet variable, its
inbound queue, the RPI_ENABLE pin, the kill flag, and ledgers of the packets
transmitted over Serial2 and of the delays performed. -/
structure RpiState where
  packet       : PacketComm
  rpi_queue    : List PacketComm
  rpi_enable   : Bool
  kill_channel : Bool
  sent_to_pi   : List PacketComm
  delays       : List Nat
  deriving DecidableEq, Repr

/-- send_to_pi: SLIP-packetize the current packet and write its bytes to
Serial2; write failures are logged and the loop continues, so at packet level
the transmission is recorded on the sent ledger. -/
def send_to_pi (s : RpiState) : RpiState :=
  { s with sent_to_pi := s.sent_to_pi ++ [s.packet] }

/-- shut_down_pi: rewrite the current packet type to CommandObcHalt, transmit
it, wait 20 s, drive RPI_ENABLE low, drain the inbound queue, ask the
scheduler to kill the channel thread (result kill_ok; a failure is only
logged), and set the kill flag. -/
def shut_down_pi (kill_ok : Bool) (s : RpiState) : RpiState :=
  let s1 := { s with packet :=
    { s.packet with header := { s.packet.header with type := TypeId.CommandObcHalt } } }
  let s2 := send_to_pi s1
  let s3 := { s2 with delays := s2.delays ++ [20000] }
  let s4 := { s3 with rpi_enable := false }
  let s5 := { s4 with rpi_queue := [] }
  let _ := kill_ok
  { s5 with kill_channel := true }

/-- handle_queue: pop one packet from the channel queue; a switch-name command
whose payload byte 0 is the RPI switch id and whose byte 1 is 0 triggers
shutdown, every other packet is forwarded to the Pi over Serial2.  Out-of-range
payload reads take defaults that match no dispatch case. -/
def handle_queue (kill_ok : Bool) (s : RpiState) : RpiState :=
  match PullQueue s.rpi_queue with
  | none => s
  | some (p, rest) =>
    let s1 := { s with packet := p, rpi_queue := rest }
    match p.header.type with
    | TypeId.CommandEpsSwitchName =>
      if p.data.getD 0 0 = PDU_SW_RPI ∧ p.data.getD 1 255 = 0 then
        shut_down_pi kill_ok s1
      else s1
    | _ => send_to_pi s1

/-- receive_from_pi is an unimplemented stub in the source. -/
def receive_from_pi (s : RpiState) : RpiState := s

/-- One iteration of the Raspberry Pi channel loop body: handle the queue,
poll the transport, then the 100 ms cooperative yield. -/
def rpi_loop_iter (kill_ok : Bool) (s : RpiState) : RpiState :=
  let s1 := handle_queue kill_ok s
  let s2 := receive_from_pi s1
  { s2 with delays := s2.delays ++ [100] }

/-- The channel loop, fuel-bounded: run the body, then test the kill flag at
the bottom of the iteration and return when it is set. -/
def rpi_loop (kill_ok : Bool) : Nat → RpiState → RpiState
  | 0, s => s
  | n + 1, s =>
    let s1 := rpi_loop_iter kill_ok s
    if s1.kill_channel then s1 else rpi_loop kill_ok n s1

/-- State of the main (router) loop: the file-scope packet variable, the
central routing queue, the three channel outbound queues, the RPI_ENABLE and
UART6_RX pins, the battery-board bus voltage, the thread registry, the delay
ledger, the deployment-beacon timer, a counter of device-beacon passes, and a
ledger of the packets popped from the central queue. -/
structure MainState where
  packet           : PacketComm
  main_queue       : List PacketComm
  rfm23_queue      : List PacketComm
  pdu_queue        : List PacketComm
  rpi_queue        : List PacketComm
  rpi_enable       : Bool
  uart6_rx         : Bool
  battery_V        : ℚ
  thread_list      : List (Nat × Nat)
  delays           : List Nat
  deploymentmode   : Bool
  deploymentbeacon : Nat
  beacons          : Nat
  processed        : List PacketComm
  deriving DecidableEq, Repr

/-- Modelled from the spec: route_packet_to_rfm23 (artemis_channels, not under
src/) pushes a packet onto the radio-link channel outbound queue. -/
def route_packet_to_rfm23 (p : PacketComm) (s : MainState) : MainState :=
  { s with rfm23_queue := s.rfm23_queue ++ [p] }

/-- Modelled from the spec: route_packet_to_pdu pushes a packet onto the
power-distribution-unit channel outbound queue. -/
def route_packet_to_pdu (p : PacketComm) (s : MainState) : MainState :=
  { s with pdu_queue := s.pdu_queue ++ [p] }

/-- Modelled from the spec: route_packet_to_rpi pushes a packet onto the
companion-computer channel outbound queue. -/
def route_packet_to_rpi (p : PacketComm) (s : MainState) : MainState :=
  { s with rpi_queue := s.rpi_queue ++ [p] }

/-- beacon_artemis_devices polls the sensor collaborators, each poll emitting
that device's beacon packet toward ground; the sensor drivers are external
collaborators, so the model records one beaconing pass on a counter. -/
def beacon_artemis_devices (s : MainState) : MainState :=
  { s with beacons := s.beacons + 1 }

/-- update_pdu_switches: overwrite the file-scope packet with a switch-status
query (origin ground, destination Teensy, payload the all-switches wildcard)
and route it to the PDU channel. -/
def update_pdu_switches (s : MainState) : MainState :=
  let p : PacketComm :=
    { header := { type := TypeId.CommandEpsSwitchStatus,
                  nodeorig := GROUND_NODE_ID,
                  nodedest := TEENSY_NODE_ID,
                  chanout := s.packet.header.chanout },
      data := [PDU_SW_All] }
  route_packet_to_pdu p { s with packet := p }

/-- enable_rpi: drive RPI_ENABLE high and start the Raspberry Pi channel
thread; tid is the scheduler's addThread result (none on failure, which is
only logged); on success the thread is appended to the registry. -/
def enable_rpi (tid : Option Nat) (s : MainState) : MainState :=
  let s1 := { s with rpi_enable := true }
  match tid with
  | none => s1
  | some id => { s1 with thread_list := s1.thread_list ++ [(id, RPI_CHANNEL)] }

/-- ensure_rpi_is_powered: when the UART6_RX presence pin reads low, compare
the battery-board bus voltage with 7.0 V; if at least 7.0 V, enable the Pi and
wait 5 s, otherwise request a PDU switch-state refresh. -/
def ensure_rpi_is_powered (tid : Option Nat) (s : MainState) : MainState :=
  if s.uart6_rx then s
  else if 7 ≤ s.battery_V then
    let s1 := enable_rpi tid s
    { s1 with delays := s1.delays ++ [5000] }
  else update_pdu_switches s

/-- route_packet_to_ground: select the outgoing channel by the packet's
chanout hint; only the RFM23 channel is wired, every other hint drops. -/
def route_packet_to_ground (s : MainState) : MainState :=
  if s.packet.header.chanout = RFM23_CHANNEL then route_packet_to_rfm23 s.packet s
  else s

/-- The ASCII bytes of the string Pong. -/
def pongData : List Nat := [80, 111, 110, 103]

/-- send_pong_reply: turn the current packet into a pong (destination = the
ping's origin, origin = Teensy, payload Pong) and route it to ground. -/
def send_pong_reply (s : MainState) : MainState :=
  let p := s.packet
  let p1 : PacketComm :=
    { header := { p.header with
        nodedest := p.header.nodeorig,
        nodeorig := TEENSY_NODE_ID,
        type := TypeId.DataObcPong },
      data := pongData }
  route_packet_to_ground { s with packet := p1 }

/-- Resize of a byte vector to length one, as std::vector resize(1): keep byte
0 when present, otherwise pad with a zero byte. -/
def resize1 (l : List Nat) : List Nat := [l.getD 0 0]

/-- report_rpi_enabled: resize the payload to one byte, append the current
RPI_ENABLE pin reading (HIGH = 1, LOW = 0), retag the packet as an EPS data
response back to the query's origin, and push it to the RFM23 channel. -/
def report_rpi_enabled (s : MainState) : MainState :=
  let pin : Nat := if s.rpi_enable then 1 else 0
  let p := s.packet
  let p1 : PacketComm :=
    { header := { p.header with
        type := TypeId.DataEpsResponse,
        nodedest := p.header.nodeorig,
        nodeorig := TEENSY_NODE_ID },
      data := resize1 p.data ++ [pin] }
  route_packet_to_rfm23 p1 { s with packet := p1 }

/-- The inner switch of route_packets for packets whose destination is the
Teensy itself, dispatching on the packet type. -/
def dispatch_teensy (tid : Option Nat) (s : MainState) : MainState :=
  match s.packet.header.type with
  | TypeId.CommandObcPing => send_pong_reply s
  | TypeId.CommandEpsCommunicate => route_packet_to_pdu s.packet s
  | TypeId.CommandEpsSwitchName =>
    if s.packet.data.getD 0 0 = PDU_SW_RPI then
      if s.packet.data.getD 1 255 = 0 then route_packet_to_rpi s.packet s
      else if s.packet.data.getD 2 255 = 1 then
        let s1 := enable_rpi tid s
        { s1 with delays := s1.delays ++ [5000] }
      else ensure_rpi_is_powered tid s
    else route_packet_to_pdu s.packet s
  | TypeId.CommandEpsSwitchStatus =>
    if s.packet.data.getD 0 0 = PDU_SW_RPI then report_rpi_enabled s
    else route_packet_to_pdu s.packet s
  | TypeId.CommandObcSendBeacon =>
    update_pdu_switches (beacon_artemis_devices s)
  | _ => s

/-- route_packets: pop at most one packet from the central routing queue
(recording it on the processed ledger) and dispatch by destination node; for
the Pi destination the ensure-powered check runs first and the file-scope
packet variable — which that check may have overwritten — is what gets
forwarded, exactly as the aliasing in the source has it. -/
def route_packets (tid : Option Nat) (s : MainState) : MainState :=
  match PullQueue s.main_queue with
  | none => s
  | some (p, rest) =>
    let s1 := { s with
      packet := p
      main_queue := rest
      processed := s.processed ++ [p] }
    if p.header.nodedest = GROUND_NODE_ID then route_packet_to_ground s1
    else if p.header.nodedest = RPI_NODE_ID then
      let s2 := ensure_rpi_is_powered tid s1
      route_packet_to_rpi s2.packet s2
    else if p.header.nodedest = TEENSY_NODE_ID then dispatch_teensy tid s1
    else s1

/-- Iterated main-loop routing: k successive cycles of route_packets. -/
def route_packets_iter (tid : Option Nat) : Nat → MainState → MainState
  | 0, s => s
  | k + 1, s => route_packets_iter tid k (route_packets tid s)

/-- The deployment beacon interval in milliseconds (testing value in the
source). -/
def readInterval : Nat := 20000

/-- beacon_if_deployed: in deployment mode, when the elapsed-milliseconds
timer has reached the interval, beacon the devices, refresh the PDU switches,
and reset the timer. -/
def beacon_if_deployed (s : MainState) : MainState :=
  if s.deploymentmode then
    if readInterval ≤ s.deploymentbeacon then
      let s1 := update_pdu_switches (beacon_artemis_devices s)
      { s1 with deploymentbeacon := 0 }
    else s
  else s

/-- Passage of dt milliseconds of wall time: the elapsedMillis timer counts
up on its own. -/
def tick (dt : Nat) (s : MainState) : MainState :=
  { s with deploymentbeacon := s.deploymentbeacon + dt }

/-- A quiescent base packet used to build concrete test states. -/
def basePacket : PacketComm :=
  { header := { type := TypeId.DataObcPong, nodeorig := 0, nodedest := 0,
                chanout := RFM23_CHANNEL },
    data := [] }

/-- A quiescent base main-loop state used to build concrete test states. -/
def baseMain : MainState :=
  { packet := basePacket, main_queue := [], rfm23_queue := [], pdu_queue := [],
    rpi_queue := [], rpi_enable := false, uart6_rx := false, battery_V := 8,
    thread_list := [], delays := [], deploymentmode := false,
    deploymentbeacon := 0, beacons := 0, processed := [] }

/-- A quiescent base Raspberry Pi channel state for concrete test states. -/
def baseRpi : RpiState :=
  { packet := basePacket, rpi_queue := [], rpi_enable := true,
    kill_channel := false, sent_to_pi := [], delays := [] }

/-- A ping packet from ground to the Teensy, radio channel egress. -/
def pingPacket : PacketComm :=
  { header := { type := TypeId.CommandObcPing, nodeorig := GROUND_NODE_ID,
                nodedest := TEENSY_NODE_ID, chanout := RFM23_CHANNEL },
    data := [] }

/-- A switch-name command for the RPI switch with argument byte 1, as the
spec's shutdown-intent packet reads. -/
def rpiSwitchArg1 : PacketComm :=
  { header := { type := TypeId.CommandEpsSwitchName, nodeorig := GROUND_NODE_ID,
                nodedest := RPI_NODE_ID, chanout := RFM23_CHANNEL },
    data := [PDU_SW_RPI, 1] }

/-- A switch-name command for the RPI switch with argument byte 0. -/
def rpiSwitchArg0 : PacketComm :=
  { header := { type := TypeId.CommandEpsSwitchName, nodeorig := GROUND_NODE_ID,
                nodedest := TEENSY_NODE_ID, chanout := RFM23_CHANNEL },
    data := [PDU_SW_RPI, 0] }

/-- A generic data packet bound for the Pi, used to pre-load queues. -/
def fillerPacket (n : Nat) : PacketComm :=
  { header := { type := TypeId.CommandEpsCommunicate, nodeorig := GROUND_NODE_ID,
                nodedest := RPI_NODE_ID, chanout := RFM23_CHANNEL },
    data := [n] }

/-- Channel state for the shutdown scenario of the spec: the inbound queue
holds the switch command with argument byte 1 followed by three packets. -/
def rpiQueueArg1State : RpiState :=
  { baseRpi with rpi_queue :=
      rpiSwitchArg1 :: [fillerPacket 1, fillerPacket 2, fillerPacket 3] }

/-- Channel state with the argument-byte-0 switch command at the head of the
queue and three packets behind it. -/
def rpiQueueArg0State : RpiState :=
  { baseRpi with rpi_queue :=
      rpiSwitchArg0 :: [fillerPacket 1, fillerPacket 2, fillerPacket 3] }

/-- Channel state whose kill flag is already set while one packet waits. -/
def rpiKilledBusyState : RpiState :=
  { baseRpi with kill_channel := true, rpi_queue := [fillerPacket 9] }

/-- The switch-status refresh packet that update_pdu_switches builds, for a
given residual chanout hint of the file-scope packet variable. -/
def refreshPacket (c : Nat) : PacketComm :=
  { header := { type := TypeId.CommandEpsSwitchStatus,
                nodeorig := GROUND_NODE_ID,
                nodedest := TEENSY_NODE_ID,
                chanout := c },
    data := [PDU_SW_All] }

/-- Router state whose central queue holds only the argument-byte-0 switch
command for the RPI switch. -/
def arg0ForwardState : MainState :=
  { baseMain with main_queue := [rpiSwitchArg0] }

/-- A switch-status query from ground for the RPI switch. -/
def rpiStatusQuery : PacketComm :=
  { header := { type := TypeId.CommandEpsSwitchStatus,
                nodeorig := GROUND_NODE_ID,
                nodedest := TEENSY_NODE_ID,
                chanout := RFM23_CHANNEL },
    data := [PDU_SW_RPI] }

/-- Router state with the enable line high and the RPI status query queued. -/
def statusQueryState : MainState :=
  { baseMain with rpi_enable := true, main_queue := [rpiStatusQuery] }

/-- A send-beacon command from ground to the flight computer. -/
def sendBeaconPacket : PacketComm :=
  { header := { type := TypeId.CommandObcSendBeacon,
                nodeorig := GROUND_NODE_ID,
                nodedest := TEENSY_NODE_ID,
                chanout := RFM23_CHANNEL },
    data := [] }

/-- Router state exercising every internal PDU-refresh generator at once:
the send-beacon command queued, the presence pin low with the bus voltage
under 7.0 V, and the deployment beacon due. -/
def refreshScenarioState : MainState :=
  { baseMain with
    main_queue := [sendBeaconPacket]
    battery_V := 5
    deploymentmode := true
    deploymentbeacon := 20000 }

/-- Router state in deployment mode with the beacon timer just due. -/
def beaconDueState : MainState :=
  { baseMain with deploymentmode := true, deploymentbeacon := 20000 }

end Artemis

namespace Artemis

/-! Helper lemmas shared by the claim theorems. -/

/-- handle_queue never clears an already-set kill flag. -/
theorem handle_queue_kill_mono (k : Bool) (s : RpiState)
    (h : s.kill_channel = true) : (handle_queue k s).kill_channel = true := by
  unfold handle_queue
  cases hq : s.rpi_queue with
  | nil => simpa [PullQueue] using h
  | cons p rest =>
    simp only [PullQueue]
    cases p.header.type <;>
      first
      | (simp [send_to_pi, shut_down_pi, h]; done)
      | (split_ifs <;> simp [shut_down_pi, send_to_pi, h])

/-- One loop iteration never clears an already-set kill flag. -/
theorem rpi_loop_iter_kill_mono (k : Bool) (s : RpiState)
    (h : s.kill_channel = true) : (rpi_loop_iter k s).kill_channel = true := by
  unfold rpi_loop_iter receive_from_pi
  simpa using handle_queue_kill_mono k s h

/-- C10: during companion-computer shutdown the kill flag is set
unconditionally — the kill_thread result (kill_ok, false on failure) is only
logged — the enable line is deasserted, the inbound queue is emptied, and
from the resulting state the channel loop runs at most one further iteration
before exiting at its flag check, for any remaining fuel. -/
theorem rpi_shutdown_kill_flag_unconditional (kill_ok k2 : Bool) (s : RpiState)
    (n : Nat) :
    (shut_down_pi kill_ok s).kill_channel = true ∧
    (shut_down_pi kill_ok s).rpi_enable = false ∧
    (shut_down_pi kill_ok s).rpi_queue = [] ∧
    rpi_loop k2 (n + 1) (shut_down_pi kill_ok s)
      = rpi_loop_iter k2 (shut_down_pi kill_ok s) := by
  refine ⟨rfl, rfl, rfl, ?_⟩
  have hk : (shut_down_pi kill_ok s).kill_channel = true := rfl
  unfold rpi_loop
  simp [rpi_loop_iter_kill_mono k2 _ hk]

/-- C2 counterexample: with the enable line high and the inbound queue
holding the RPI switch command with argument byte 1 followed by three
packets, handle_queue transmits no halt command, leaves the enable line
high, leaves three packets queued, and does not set the kill flag. -/
theorem rpi_shutdown_arg1_counterexample :
    (handle_queue true rpiQueueArg1State).sent_to_pi = [] ∧
    (handle_queue true rpiQueueArg1State).rpi_enable = true ∧
    (handle_queue true rpiQueueArg1State).rpi_queue.length = 3 ∧
    (handle_queue true rpiQueueArg1State).kill_channel = false := by
  decide

/-- C2 (amended): a switch command whose payload byte 0 is the RPI switch id
and whose argument byte (payload byte 1) is 0 makes the channel transmit a
halt command over its transport, wait the 20 s grace period, deassert the
enable line, and empty its inbound queue, whatever else the queue held and
whatever the kill_thread result. -/
theorem rpi_shutdown_on_arg0 (k : Bool) (s : RpiState) (cmd : PacketComm)
    (rest : List PacketComm)
    (hq : s.rpi_queue = cmd :: rest)
    (ht : cmd.header.type = TypeId.CommandEpsSwitchName)
    (h0 : cmd.data.getD 0 0 = PDU_SW_RPI)
    (h1 : cmd.data.getD 1 255 = 0) :
    (handle_queue k s).sent_to_pi = s.sent_to_pi ++
      [{ cmd with header := { cmd.header with type := TypeId.CommandObcHalt } }] ∧
    (handle_queue k s).delays = s.delays ++ [20000] ∧
    (handle_queue k s).rpi_enable = false ∧
    (handle_queue k s).rpi_queue = [] ∧
    (handle_queue k s).kill_channel = true := by
  have h0n : cmd.data[0]?.getD 0 = PDU_SW_RPI := by simpa [List.getD] using h0
  have h1n : cmd.data[1]?.getD 255 = 0 := by simpa [List.getD] using h1
  unfold handle_queue
  simp [hq, PullQueue, ht, h0n, h1n, shut_down_pi, send_to_pi]

/-- C2 witness: in the spec's scenario — the queue pre-loaded with three
packets behind the argument-byte-0 switch command — shutdown empties the
queue to length 0, transmits the halt, and deasserts the enable line. -/
theorem rpi_shutdown_on_arg0_witness :
    (handle_queue true rpiQueueArg0State).sent_to_pi = [] ++
      [{ rpiSwitchArg0 with
          header := { rpiSwitchArg0.header with type := TypeId.CommandObcHalt } }] ∧
    (handle_queue true rpiQueueArg0State).delays = [] ++ [20000] ∧
    (handle_queue true rpiQueueArg0State).rpi_enable = false ∧
    (handle_queue true rpiQueueArg0State).rpi_queue = [] ∧
    (handle_queue true rpiQueueArg0State).kill_channel = true :=
  rpi_shutdown_on_arg0 true rpiQueueArg0State rpiSwitchArg0
    [fillerPacket 1, fillerPacket 2, fillerPacket 3] rfl rfl (by decide) (by decide)

/-- C8 counterexample: with the kill flag already set before an iteration
begins and one packet queued, the next loop iteration still handles the
queue and transmits that packet to the Pi — the flag is not observed before
queue handling. -/
theorem rpi_kill_flag_not_checked_first :
    (rpi_loop true 1 rpiKilledBusyState).sent_to_pi = [fillerPacket 9] := by
  decide

/-- C8 (amended): the channel tests its kill flag at the bottom of each loop
iteration, after handling its inbound queue, polling its transport, and the
100 ms yield; once the flag is set, at most one further full iteration runs —
the loop returns at that iteration's flag check regardless of remaining
fuel — so packet handling stops after the current iteration. -/
theorem rpi_kill_flag_bottom_of_loop (k : Bool) (n : Nat) (s : RpiState)
    (h : s.kill_channel = true) :
    rpi_loop k (n + 1) s = rpi_loop_iter k s := by
  unfold rpi_loop
  simp [rpi_loop_iter_kill_mono k s h]

/-- C8 witness: with the kill flag set, five units of fuel still run exactly
one iteration. -/
theorem rpi_kill_flag_bottom_of_loop_witness :
    rpi_loop true 5 rpiKilledBusyState = rpi_loop_iter true rpiKilledBusyState :=
  rpi_kill_flag_bottom_of_loop true 4 rpiKilledBusyState rfl

end Artemis

namespace Artemis

/-- C1: a ping packet addressed to the flight computer, with the radio-link
channel as its egress hint, makes the router emit exactly one pong reply —
destination the ping's origin, origin the flight computer, payload the bytes
of Pong — onto the radio-link channel's outbound queue, leaving the other
channel queues untouched and consuming exactly the ping. -/
theorem router_ping_produces_single_pong (tid : Option Nat) (s : MainState)
    (p : PacketComm) (rest : List PacketComm)
    (hq : s.main_queue = p :: rest)
    (hdest : p.header.nodedest = TEENSY_NODE_ID)
    (ht : p.header.type = TypeId.CommandObcPing)
    (hc : p.header.chanout = RFM23_CHANNEL) :
    (route_packets tid s).rfm23_queue = s.rfm23_queue ++
      [{ header := { type := TypeId.DataObcPong, nodeorig := TEENSY_NODE_ID,
                     nodedest := p.header.nodeorig, chanout := p.header.chanout },
         data := pongData }] ∧
    (route_packets tid s).pdu_queue = s.pdu_queue ∧
    (route_packets tid s).rpi_queue = s.rpi_queue ∧
    (route_packets tid s).main_queue = rest := by
  unfold route_packets
  simp [hq, PullQueue, hdest, ht, hc, dispatch_teensy, send_pong_reply,
        route_packet_to_ground, route_packet_to_rfm23,
        GROUND_NODE_ID, RPI_NODE_ID, TEENSY_NODE_ID, RFM23_CHANNEL]

/-- C1 witness: the concrete ping from ground is answered by the concrete
pong on the radio queue. -/
theorem router_ping_produces_single_pong_witness :
    (route_packets (some 5) { baseMain with main_queue := [pingPacket] }).rfm23_queue
      = [] ++
        [{ header := { type := TypeId.DataObcPong, nodeorig := TEENSY_NODE_ID,
                       nodedest := pingPacket.header.nodeorig,
                       chanout := pingPacket.header.chanout },
           data := pongData }] ∧
    (route_packets (some 5) { baseMain with main_queue := [pingPacket] }).pdu_queue = [] ∧
    (route_packets (some 5) { baseMain with main_queue := [pingPacket] }).rpi_queue = [] ∧
    (route_packets (some 5) { baseMain with main_queue := [pingPacket] }).main_queue = [] :=
  router_ping_produces_single_pong (some 5)
    { baseMain with main_queue := [pingPacket] } pingPacket [] rfl rfl rfl rfl

end Artemis

namespace Artemis

/-- C3: a switch-name command addressed to the flight computer whose payload
byte 0 is the RPI switch id and whose argument byte (payload byte 1) is 0 is
forwarded by the router verbatim — header and payload unchanged — onto the
companion-computer channel's outbound queue; the router performs no power
action of its own (enable line, thread registry, and delay ledger are all
unchanged) and emits nothing on the other channel queues. -/
theorem router_rpi_switch_arg0_forwarded_verbatim (tid : Option Nat)
    (s : MainState) (p : PacketComm) (rest : List PacketComm)
    (hq : s.main_queue = p :: rest)
    (hdest : p.header.nodedest = TEENSY_NODE_ID)
    (ht : p.header.type = TypeId.CommandEpsSwitchName)
    (h0 : p.data.getD 0 0 = PDU_SW_RPI)
    (h1 : p.data.getD 1 255 = 0) :
    (route_packets tid s).rpi_queue = s.rpi_queue ++ [p] ∧
    (route_packets tid s).rfm23_queue = s.rfm23_queue ∧
    (route_packets tid s).pdu_queue = s.pdu_queue ∧
    (route_packets tid s).rpi_enable = s.rpi_enable ∧
    (route_packets tid s).thread_list = s.thread_list ∧
    (route_packets tid s).delays = s.delays := by
  have h0n : p.data[0]?.getD 0 = PDU_SW_RPI := by simpa [List.getD] using h0
  have h1n : p.data[1]?.getD 255 = 0 := by simpa [List.getD] using h1
  unfold route_packets
  simp [hq, PullQueue, hdest, ht, h0n, h1n, dispatch_teensy, route_packet_to_rpi,
        GROUND_NODE_ID, RPI_NODE_ID, TEENSY_NODE_ID]

/-- C3 witness: the concrete argument-byte-0 switch command appears verbatim
on the companion-computer queue and nothing else changes. -/
theorem router_rpi_switch_arg0_forwarded_verbatim_witness :
    (route_packets (some 5) arg0ForwardState).rpi_queue = [rpiSwitchArg0] ∧
    (route_packets (some 5) arg0ForwardState).rfm23_queue = [] ∧
    (route_packets (some 5) arg0ForwardState).pdu_queue = [] ∧
    (route_packets (some 5) arg0ForwardState).rpi_enable = false ∧
    (route_packets (some 5) arg0ForwardState).thread_list = [] ∧
    (route_packets (some 5) arg0ForwardState).delays = [] := by
  have h := router_rpi_switch_arg0_forwarded_verbatim (some 5)
    arg0ForwardState rpiSwitchArg0 [] (by decide) (by decide) (by decide) (by decide)
    (by decide)
  simpa [arg0ForwardState, baseMain] using h

/-- C5: a switch-status query addressed to the flight computer whose payload
byte 0 is the RPI switch id makes the router emit onto the radio-link queue a
reply typed as an EPS data response, with destination the query's origin and
origin the flight computer, whose appended power-state byte (payload byte 1)
equals the current RPI_ENABLE reading, HIGH = 1 and LOW = 0. -/
theorem router_rpi_status_reply_reports_pin (tid : Option Nat)
    (s : MainState) (p : PacketComm) (rest : List PacketComm)
    (hq : s.main_queue = p :: rest)
    (hdest : p.header.nodedest = TEENSY_NODE_ID)
    (ht : p.header.type = TypeId.CommandEpsSwitchStatus)
    (h0 : p.data.getD 0 0 = PDU_SW_RPI) :
    (route_packets tid s).rfm23_queue = s.rfm23_queue ++
      [{ header := { type := TypeId.DataEpsResponse, nodeorig := TEENSY_NODE_ID,
                     nodedest := p.header.nodeorig, chanout := p.header.chanout },
         data := resize1 p.data ++ [if s.rpi_enable then 1 else 0] }] ∧
    (route_packets tid s).pdu_queue = s.pdu_queue ∧
    (route_packets tid s).rpi_queue = s.rpi_queue ∧
    (route_packets tid s).rpi_enable = s.rpi_enable := by
  have h0n : p.data[0]?.getD 0 = PDU_SW_RPI := by simpa [List.getD] using h0
  unfold route_packets
  simp [hq, PullQueue, hdest, ht, h0n, dispatch_teensy, report_rpi_enabled,
        route_packet_to_rfm23, GROUND_NODE_ID, RPI_NODE_ID, TEENSY_NODE_ID]

/-- C5 witness: with the enable line high, the concrete query is answered by
a reply whose power-state byte is 1. -/
theorem router_rpi_status_reply_reports_pin_witness :
    (route_packets (some 5) statusQueryState).rfm23_queue =
      [{ header := { type := TypeId.DataEpsResponse, nodeorig := TEENSY_NODE_ID,
                     nodedest := GROUND_NODE_ID, chanout := RFM23_CHANNEL },
         data := [PDU_SW_RPI, 1] }] ∧
    (route_packets (some 5) statusQueryState).pdu_queue = [] ∧
    (route_packets (some 5) statusQueryState).rpi_queue = [] ∧
    (route_packets (some 5) statusQueryState).rpi_enable = true := by
  have h := router_rpi_status_reply_reports_pin (some 5)
    statusQueryState rpiStatusQuery [] (by decide) (by decide) (by decide) (by decide)
  simpa [statusQueryState, baseMain, rpiStatusQuery, resize1] using h

end Artemis

namespace Artemis

/-- C9: every internally generated power-unit switch-status refresh — from a
send-beacon command, from the deployment beacon, and from an ensure-powered
call that finds the presence pin low and the bus voltage under 7.0 V — is one
packet with type switch-status-query, origin the ground node, destination the
flight-computer node, and the one-byte all-switches payload, pushed onto the
power-unit channel's outbound queue. -/
theorem internal_pdu_refresh_claims_ground_origin (tid : Option Nat)
    (s : MainState) (p : PacketComm) (rest : List PacketComm)
    (hq : s.main_queue = p :: rest)
    (hdest : p.header.nodedest = TEENSY_NODE_ID)
    (ht : p.header.type = TypeId.CommandObcSendBeacon)
    (hrx : s.uart6_rx = false)
    (hv : s.battery_V < 7)
    (hdep : s.deploymentmode = true)
    (hdue : readInterval ≤ s.deploymentbeacon) :
    (route_packets tid s).pdu_queue
      = s.pdu_queue ++ [refreshPacket p.header.chanout] ∧
    (ensure_rpi_is_powered tid s).pdu_queue
      = s.pdu_queue ++ [refreshPacket s.packet.header.chanout] ∧
    (beacon_if_deployed s).pdu_queue
      = s.pdu_queue ++ [refreshPacket s.packet.header.chanout] := by
  have hv' : ¬ (7 ≤ s.battery_V) := not_le.mpr hv
  refine ⟨?_, ?_, ?_⟩
  · unfold route_packets
    simp [hq, PullQueue, hdest, ht, dispatch_teensy, update_pdu_switches,
          beacon_artemis_devices, route_packet_to_pdu, refreshPacket,
          GROUND_NODE_ID, RPI_NODE_ID, TEENSY_NODE_ID]
  · unfold ensure_rpi_is_powered
    simp [hrx, hv', update_pdu_switches, route_packet_to_pdu, refreshPacket]
  · unfold beacon_if_deployed
    simp [hdep, hdue, update_pdu_switches, beacon_artemis_devices,
          route_packet_to_pdu, refreshPacket]

/-- C9 witness: in the combined concrete scenario each of the three
generators pushes exactly the ground-origin refresh packet. -/
theorem internal_pdu_refresh_claims_ground_origin_witness :
    (route_packets (some 5) refreshScenarioState).pdu_queue
      = [refreshPacket RFM23_CHANNEL] ∧
    (ensure_rpi_is_powered (some 5) refreshScenarioState).pdu_queue
      = [refreshPacket RFM23_CHANNEL] ∧
    (beacon_if_deployed refreshScenarioState).pdu_queue
      = [refreshPacket RFM23_CHANNEL] := by
  have h := internal_pdu_refresh_claims_ground_origin (some 5)
    refreshScenarioState sendBeaconPacket [] (by decide) (by decide) (by decide)
    (by decide) (by norm_num [refreshScenarioState, baseMain]) (by decide) (by decide)
  simpa [refreshScenarioState, baseMain, sendBeaconPacket, basePacket] using h

/-- C6: in deployment mode a due check emits one beaconing pass, requests the
PDU refresh, and resets the timer; a second check made while less than the
configured interval has elapsed since that emission changes nothing at all —
no beacon traffic, no queue growth, no timer reset. -/
theorem deployment_beacon_rate_limited (s : MainState) (dt : Nat)
    (hdep : s.deploymentmode = true)
    (hdue : readInterval ≤ s.deploymentbeacon)
    (hdt : dt < readInterval) :
    (beacon_if_deployed s).beacons = s.beacons + 1 ∧
    (beacon_if_deployed s).deploymentbeacon = 0 ∧
    beacon_if_deployed (tick dt (beacon_if_deployed s))
      = tick dt (beacon_if_deployed s) := by
  have hnot : ¬ (readInterval ≤ 0 + dt) := by
    simpa using Nat.not_le.mpr hdt
  unfold beacon_if_deployed tick
  simp [hdep, hdue, update_pdu_switches, beacon_artemis_devices,
        route_packet_to_pdu, hnot, hdt]

/-- C6 witness: a due check at a timer of 20000 ms emits once, and a second
check 19999 ms later is a no-op. -/
theorem deployment_beacon_rate_limited_witness :
    (beacon_if_deployed beaconDueState).beacons = 0 + 1 ∧
    (beacon_if_deployed beaconDueState).deploymentbeacon = 0 ∧
    beacon_if_deployed (tick 19999 (beacon_if_deployed beaconDueState))
      = tick 19999 (beacon_if_deployed beaconDueState) := by
  have h := deployment_beacon_rate_limited beaconDueState 19999
    (by decide) (by decide) (by decide)
  simpa [beaconDueState, baseMain] using h

/-- C4 counterexample: with the presence pin low and 8 V on the bus, two
successive ensure-powered calls register the companion-computer channel
twice — the registry gains two RPI entries, not exactly one. -/
theorem ensure_powered_duplicate_registration :
    (ensure_rpi_is_powered (some 7)
        (ensure_rpi_is_powered (some 6) baseMain)).thread_list
      = [(6, RPI_CHANNEL), (7, RPI_CHANNEL)] := by
  norm_num [ensure_rpi_is_powered, enable_rpi, baseMain, basePacket]

/-- C4 (amended): one ensure-powered call finding the presence pin low and at
least 7.0 V on the bus asserts the enable line, appends exactly one RPI entry
to the registry (when the thread start succeeds), and blocks for the 5 s
grace delay; a later call that sees the presence signal asserted changes
nothing — the presence pin, not the sequencer, is the only guard against a
duplicate power-on. -/
theorem ensure_powered_registers_once_per_call (id : Nat) (tid2 : Option Nat)
    (s : MainState)
    (hrx : s.uart6_rx = false)
    (hv : 7 ≤ s.battery_V) :
    (ensure_rpi_is_powered (some id) s).rpi_enable = true ∧
    (ensure_rpi_is_powered (some id) s).thread_list
      = s.thread_list ++ [(id, RPI_CHANNEL)] ∧
    (ensure_rpi_is_powered (some id) s).delays = s.delays ++ [5000] ∧
    ensure_rpi_is_powered tid2
        { ensure_rpi_is_powered (some id) s with uart6_rx := true }
      = { ensure_rpi_is_powered (some id) s with uart6_rx := true } := by
  unfold ensure_rpi_is_powered enable_rpi
  simp [hrx, hv]

/-- C4 witness: from the base state at 8 V with the presence pin low, one
call registers thread 6 exactly once, and a repeat call with the presence
pin now high is a no-op. -/
theorem ensure_powered_registers_once_per_call_witness :
    (ensure_rpi_is_powered (some 6) baseMain).rpi_enable = true ∧
    (ensure_rpi_is_powered (some 6) baseMain).thread_list
      = [(6, RPI_CHANNEL)] ∧
    (ensure_rpi_is_powered (some 6) baseMain).delays = [5000] ∧
    ensure_rpi_is_powered (some 7)
        { ensure_rpi_is_powered (some 6) baseMain with uart6_rx := true }
      = { ensure_rpi_is_powered (some 6) baseMain with uart6_rx := true } := by
  have h := ensure_powered_registers_once_per_call 6 (some 7) baseMain
    (by decide) (by norm_num [baseMain])
  simpa [baseMain] using h

end Artemis

namespace Artemis

/-- Routing a packet to ground touches neither the central queue nor the
processed ledger. -/
theorem route_to_ground_central (s : MainState) :
    (route_packet_to_ground s).main_queue = s.main_queue ∧
    (route_packet_to_ground s).processed = s.processed := by
  unfold route_packet_to_ground route_packet_to_rfm23
  split_ifs <;> simp

/-- Requesting the PDU switch refresh touches neither the central queue nor
the processed ledger. -/
theorem update_pdu_switches_central (s : MainState) :
    (update_pdu_switches s).main_queue = s.main_queue ∧
    (update_pdu_switches s).processed = s.processed := by
  simp [update_pdu_switches, route_packet_to_pdu]

/-- The power sequencer touches neither the central queue nor the processed
ledger. -/
theorem ensure_powered_central (tid : Option Nat) (s : MainState) :
    (ensure_rpi_is_powered tid s).main_queue = s.main_queue ∧
    (ensure_rpi_is_powered tid s).processed = s.processed := by
  unfold ensure_rpi_is_powered enable_rpi
  cases tid <;> split_ifs <;>
    simp [update_pdu_switches, route_packet_to_pdu]

/-- The pong reply construction touches neither the central queue nor the
processed ledger. -/
theorem send_pong_reply_central (s : MainState) :
    (send_pong_reply s).main_queue = s.main_queue ∧
    (send_pong_reply s).processed = s.processed := by
  simp only [send_pong_reply, route_packet_to_ground, route_packet_to_rfm23]
  split_ifs <;> simp

/-- Every branch of the Teensy-destination dispatch leaves the central queue
and the processed ledger untouched. -/
theorem dispatch_teensy_preserves_central (tid : Option Nat) (s : MainState) :
    (dispatch_teensy tid s).main_queue = s.main_queue ∧
    (dispatch_teensy tid s).processed = s.processed := by
  unfold dispatch_teensy
  split
  · exact send_pong_reply_central s
  · simp [route_packet_to_pdu]
  · split_ifs
    · simp [route_packet_to_rpi]
    · constructor
      · cases tid <;> simp [enable_rpi]
      · cases tid <;> simp [enable_rpi]
    · exact ensure_powered_central tid s
    · simp [route_packet_to_pdu]
  · split_ifs
    · simp [report_rpi_enabled, route_packet_to_rfm23]
    · simp [route_packet_to_pdu]
  · rcases update_pdu_switches_central (beacon_artemis_devices s) with ⟨h1, h2⟩
    rw [h1, h2]
    simp [beacon_artemis_devices]
  · exact ⟨rfl, rfl⟩

/-- One routing cycle pops exactly the head of the central queue onto the
processed ledger, whatever the dispatch outcome. -/
theorem route_packets_step_central (tid : Option Nat) (s : MainState) :
    (route_packets tid s).main_queue = s.main_queue.tail ∧
    (route_packets tid s).processed = s.processed ++ s.main_queue.take 1 := by
  unfold route_packets
  cases hq : s.main_queue with
  | nil => simp [PullQueue, hq]
  | cons p rest =>
    simp only [PullQueue, hq, List.tail_cons]
    split_ifs
    · rcases route_to_ground_central { s with packet := p, main_queue := rest, processed := s.processed ++ [p] } with ⟨h1, h2⟩
      rw [h1, h2]
      simp
    · rcases ensure_powered_central tid { s with packet := p, main_queue := rest, processed := s.processed ++ [p] } with ⟨h1, h2⟩
      simp [route_packet_to_rpi, h1, h2]
    · rcases dispatch_teensy_preserves_central tid { s with packet := p, main_queue := rest, processed := s.processed ++ [p] } with ⟨h1, h2⟩
      rw [h1, h2]
      simp
    · simp

/-- Iterated routing consumes the central queue front-first: after k cycles
the first k packets, in order, have moved to the processed ledger. -/
theorem route_packets_iter_central (tid : Option Nat) (k : Nat)
    (s : MainState) :
    (route_packets_iter tid k s).main_queue = s.main_queue.drop k ∧
    (route_packets_iter tid k s).processed
      = s.processed ++ s.main_queue.take k := by
  induction k generalizing s with
  | zero => simp [route_packets_iter]
  | succ n ih =>
    have hs := route_packets_step_central tid s
    have hi := ih (route_packets tid s)
    constructor
    · rw [route_packets_iter, hi.1, hs.1, ← List.drop_one, List.drop_drop,
          Nat.add_comm]
    · rw [route_packets_iter, hi.2, hs.2, hs.1, ← List.drop_one,
          List.append_assoc, ← List.take_add, Nat.add_comm]

/-- C7: each main-loop cycle pops at most one packet — exactly the head of
the central routing queue, recorded on the processed ledger — and k cycles
handle exactly the first k queued packets in their arrival order, leaving the
remainder queued. -/
theorem router_one_packet_per_cycle_fifo (tid : Option Nat) (k : Nat)
    (s : MainState) :
    (route_packets tid s).main_queue = s.main_queue.tail ∧
    (route_packets tid s).processed = s.processed ++ s.main_queue.take 1 ∧
    (route_packets_iter tid k s).main_queue = s.main_queue.drop k ∧
    (route_packets_iter tid k s).processed
      = s.processed ++ s.main_queue.take k :=
  ⟨(route_packets_step_central tid s).1, (route_packets_step_central tid s).2,
   (route_packets_iter_central tid k s).1,
   (route_packets_iter_central tid k s).2⟩

end Artemis
